import Mathlib

/-!
Verification of the type-binding generator specification against the
tauri-typegen example repository.

The repository supplies example declarations (`models.rs`) and command
handlers (`commands.rs`) for two example apps (`zod` and `ts`).  The
generator itself lives in an external crate (`tauri_typegen`, invoked from
`build.rs`); its behaviour — name mapping, schema/validator/function
emission — is therefore modelled from the specification, while every
declaration and command body below is embedded from the repository source.
-/

namespace TauriTypegen

/-- Naming conventions for external names (spec section 3). -/
inductive NamingConvention where
  | asDeclared
  | camelCase
  | screamingSnakeCase
deriving DecidableEq

/-- Splits an identifier into words at underscores and at uppercase
letters, covering both `snake_case` field names and `PascalCase` variant
names. Helper for the name mapper. -/
def splitWordsAux : List Char → List Char → List String
  | [], acc => if acc.isEmpty then [] else [String.mk acc.reverse]
  | c :: cs, acc =>
    if c = '_' then
      (if acc.isEmpty then [] else [String.mk acc.reverse]) ++ splitWordsAux cs []
    else if c.isUpper && !acc.isEmpty then
      (String.mk acc.reverse) :: splitWordsAux cs [c]
    else
      splitWordsAux cs (c :: acc)

/-- Word decomposition of a declared identifier. -/
def splitWords (s : String) : List String :=
  splitWordsAux s.toList []

/-- Lowercases every character of a word. -/
def lowerWord (w : String) : String :=
  String.mk (w.toList.map Char.toLower)

/-- Uppercases every character of a word. -/
def upperWord (w : String) : String :=
  String.mk (w.toList.map Char.toUpper)

/-- Uppercases the first character of a word and lowercases the rest. -/
def capitalizeWord (w : String) : String :=
  match w.toList with
  | [] => ""
  | c :: cs => String.mk (c.toUpper :: cs.map Char.toLower)

/-- Modelled from the spec: the `CamelCase` transform of the Name Mapper
(section 4.2) — lower-cases the first word and capitalizes subsequent
word boundaries of the declared name. -/
def toCamelCase (s : String) : String :=
  match splitWords s with
  | [] => ""
  | w :: ws => lowerWord w ++ String.join (ws.map capitalizeWord)

/-- Modelled from the spec: the `ScreamingSnakeCase` transform of the Name
Mapper (section 4.2) — upper-cases the words and joins them with an
underscore. -/
def toScreamingSnakeCase (s : String) : String :=
  String.intercalate "_" ((splitWords s).map upperWord)

/-- Applies a naming convention to a declared name. -/
def applyConvention : NamingConvention → String → String
  | .asDeclared, s => s
  | .camelCase, s => toCamelCase s
  | .screamingSnakeCase, s => toScreamingSnakeCase s

/-- Modelled from the spec: the Name Mapper (section 4.2).  The generator
crate is not part of the repository source; per the spec, an explicit
rename override wins outright, otherwise the convention is applied. -/
def mapName (declared : String) (conv : NamingConvention) (ov : Option String) : String :=
  match ov with
  | some o => o
  | none => applyConvention conv declared

/-- Primitive type references of the Declaration Model (spec section 3). -/
inductive Primitive where
  | int32
  | int64
  | float64
  | bool
  | string
  | bytes
deriving DecidableEq

/-- A type reference: primitive, named declaration, optional, sequence, or
string-keyed map (spec section 3). -/
inductive TypeRef where
  | prim : Primitive → TypeRef
  | named : String → TypeRef
  | option : TypeRef → TypeRef
  | sequence : TypeRef → TypeRef
  | map : TypeRef → TypeRef
deriving DecidableEq

/-- A validation constraint attached to a Field (spec section 3).  Numeric
range bounds are modelled as rationals, covering both the integer and the
floating-point bounds of the source annotations. -/
inductive Constraint where
  | range : Option ℚ → Option ℚ → Constraint
  | length : Option Nat → Option Nat → Constraint
  | pattern : String → Constraint
  | email : Constraint
deriving DecidableEq

/-- A struct field of the Declaration Model (spec section 3). -/
structure Field where
  name : String
  ty : TypeRef
  optional : Bool := false
  renameOverride : Option String := none
  skip : Bool := false
  constraints : List Constraint := []
deriving DecidableEq

/-- An enum variant of the Declaration Model (spec section 3). -/
structure Variant where
  name : String
  renameOverride : Option String := none
  payload : Option TypeRef := none
deriving DecidableEq

/-- A struct declaration: named, with a container naming convention and an
ordered field list. -/
structure StructDecl where
  name : String
  convention : NamingConvention := .asDeclared
  fields : List Field
deriving DecidableEq

/-- An enum declaration: named, with a container naming convention and an
ordered variant list. -/
structure EnumDecl where
  name : String
  convention : NamingConvention := .asDeclared
  variants : List Variant
deriving DecidableEq

/-- A type declaration is a struct or an enum (spec section 3). -/
inductive TypeDecl where
  | structDecl : StructDecl → TypeDecl
  | enumDecl : EnumDecl → TypeDecl
deriving DecidableEq

/-- Effective external name of a field: override if present, else the
container convention applied to the declared name (spec section 3). -/
def fieldExternalName (conv : NamingConvention) (f : Field) : String :=
  mapName f.name conv f.renameOverride

/-- Effective external name (tag) of a variant. -/
def variantExternalName (conv : NamingConvention) (v : Variant) : String :=
  mapName v.name conv v.renameOverride

/-- Modelled from the spec: the Schema Emitter's member list for a struct
(section 4.3) — the non-skipped fields under their effective external
names, in declared order.  The emitter crate is not in the repository
source. -/
def schemaMembers (s : StructDecl) : List String :=
  (s.fields.filter (fun f => !f.skip)).map (fieldExternalName s.convention)

/-- Modelled from the spec: the members an external input must supply —
non-skipped, non-optional fields (sections 3 and 4.3). -/
def requiredMembers (s : StructDecl) : List String :=
  (s.fields.filter (fun f => !f.skip && !f.optional)).map (fieldExternalName s.convention)

/-- Modelled from the spec: the Validator Emitter's field list for a struct
(section 4.4) — a check is emitted only for non-skipped fields carrying at
least one constraint. -/
def validatorMembers (s : StructDecl) : List String :=
  (s.fields.filter (fun f => !f.skip && !f.constraints.isEmpty)).map (fieldExternalName s.convention)

/-- The external tags emitted for an enum, in declared order. -/
def enumTags (e : EnumDecl) : List String :=
  e.variants.map (variantExternalName e.convention)

/-- One entry of a ValidationResult: the failing field path and a
human-readable message (spec section 4.4). -/
structure ValidationError where
  fieldPath : String
  message : String
deriving DecidableEq

/-- Modelled from the spec: the runtime check emitted for a
`Range` constraint (section 4.4) — the value must satisfy
`min <= value` and `value <= max` where present, and a violated bound
reports which bound failed, naming the field path. -/
def checkRange (path : String) (rmin rmax : Option ℚ) (v : ℚ) : List ValidationError :=
  (match rmin with
   | some m => if v < m then [⟨path, path ++ ": below min bound"⟩] else []
   | none => []) ++
  (match rmax with
   | some m => if m < v then [⟨path, path ++ ": above max bound"⟩] else []
   | none => [])

/-- Modelled from the spec: the emitted validator of one field restricted
to its `Range` constraints (section 4.4), run on a numeric value; all
constraint checks of the field are combined by conjunction, i.e. their
error lists are concatenated. -/
def fieldRangeValidator (conv : NamingConvention) (f : Field) (v : ℚ) : List ValidationError :=
  f.constraints.foldr
    (fun c acc =>
      match c with
      | .range rmin rmax => checkRange (fieldExternalName conv f) rmin rmax v ++ acc
      | _ => acc)
    []

/-! Declarations embedded from `src/zod/src-tauri/src/models.rs`. -/

/-- The `user_id` field of `User` (zod models.rs, line 9-10):
`#[validate(range(min = 1))] pub user_id: i32`. -/
def userIdField : Field :=
  { name := "user_id", ty := .prim .int32, constraints := [.range (some 1) none] }

/-- The `internal_field` field of `User` (zod models.rs, line 16-17):
`#[serde(skip)] pub internal_field: String`. -/
def internalField : Field :=
  { name := "internal_field", ty := .prim .string, skip := true }

/-- The `User` struct (zod models.rs, lines 6-18), container convention
`#[serde(rename_all = "camelCase")]`. -/
def userDecl : StructDecl :=
  { name := "User"
    convention := .camelCase
    fields :=
      [ userIdField
      , { name := "user_name", ty := .prim .string,
          constraints := [.length (some 3) (some 50)] }
      , { name := "email", ty := .prim .string, constraints := [.email] }
      , { name := "is_active", ty := .prim .bool }
      , internalField ] }

/-- The `id` field of `Product` (zod models.rs, lines 23-25):
`#[serde(rename = "productId")] #[validate(range(min = 1))] pub id: i32`. -/
def productIdField : Field :=
  { name := "id", ty := .prim .int32, renameOverride := some "productId",
    constraints := [.range (some 1) none] }

/-- The `Product` struct (zod models.rs, lines 21-31); no container
`rename_all`, so the convention is `asDeclared`. -/
def productDecl : StructDecl :=
  { name := "Product"
    convention := .asDeclared
    fields :=
      [ productIdField
      , { name := "name", ty := .prim .string,
          constraints := [.length (some 1) (some 100)] }
      , { name := "price", ty := .prim .float64,
          constraints := [.range (some (1 / 100)) none] }
      , { name := "in_stock", ty := .option (.prim .bool), optional := true } ] }

/-- The `OrderStatus` enum (zod models.rs, lines 34-42), container
convention `#[serde(rename_all = "SCREAMING_SNAKE_CASE")]`. -/
def orderStatusDecl : EnumDecl :=
  { name := "OrderStatus"
    convention := .screamingSnakeCase
    variants :=
      [ { name := "Pending" }
      , { name := "Processing" }
      , { name := "Shipped" }
      , { name := "Delivered" }
      , { name := "Cancelled" } ] }

/-- The `PaymentMethod` enum (zod models.rs, lines 45-53); every variant
carries a `#[serde(rename = ...)]` override, no container convention. -/
def paymentMethodDecl : EnumDecl :=
  { name := "PaymentMethod"
    convention := .asDeclared
    variants :=
      [ { name := "CreditCard", renameOverride := some "credit_card" }
      , { name := "PayPal", renameOverride := some "paypal" }
      , { name := "BankTransfer", renameOverride := some "bank_transfer" } ] }

/-- The `Settings` struct (zod models.rs, lines 71-79), container
convention `camelCase`, with a `HashMap<String, bool>` member. -/
def settingsDecl : StructDecl :=
  { name := "Settings"
    convention := .camelCase
    fields :=
      [ { name := "app_name", ty := .prim .string,
          constraints := [.length (some 1) (some 100)] }
      , { name := "version", ty := .prim .string }
      , { name := "features", ty := .map (.prim .bool) }
      , { name := "theme", ty := .option (.prim .string), optional := true } ] }

/-! Declarations embedded from `src/ts/src-tauri/src/models.rs`.  They
mirror the zod declarations but carry no `validator` constraints. -/

/-- The `User` struct of the ts example (ts models.rs, lines 5-14). -/
def tsUserDecl : StructDecl :=
  { name := "User"
    convention := .camelCase
    fields :=
      [ { name := "user_id", ty := .prim .int32 }
      , { name := "user_name", ty := .prim .string }
      , { name := "email", ty := .prim .string }
      , { name := "is_active", ty := .prim .bool }
      , { name := "internal_field", ty := .prim .string, skip := true } ] }

/-- The `id` field of the ts example's `Product` (ts models.rs, lines
19-20): `#[serde(rename = "productId")] pub id: i32`. -/
def tsProductIdField : Field :=
  { name := "id", ty := .prim .int32, renameOverride := some "productId" }

/-- The `Product` struct of the ts example (ts models.rs, lines 17-24). -/
def tsProductDecl : StructDecl :=
  { name := "Product"
    convention := .asDeclared
    fields :=
      [ tsProductIdField
      , { name := "name", ty := .prim .string }
      , { name := "price", ty := .prim .float64 }
      , { name := "in_stock", ty := .option (.prim .bool), optional := true } ] }

/-! Commands embedded from `src/zod/src-tauri/src/commands.rs`.  Rust
`f64` values are modelled as rationals (every numeric literal of the
source is exactly representable), `Result<T, String>` as `Except String T`,
and `Option<i32>` as `Option Int`. -/

/-- The runtime `OrderStatus` enum (zod models.rs, lines 36-42). -/
inductive OrderStatus where
  | Pending
  | Processing
  | Shipped
  | Delivered
  | Cancelled
deriving DecidableEq

/-- The Rust `Debug` rendering of an `OrderStatus` value, as used by the
`{:?}` format in `update_order_status`. -/
def OrderStatus.debugStr : OrderStatus → String
  | .Pending => "Pending"
  | .Processing => "Processing"
  | .Shipped => "Shipped"
  | .Delivered => "Delivered"
  | .Cancelled => "Cancelled"

/-- `update_order_status` (commands.rs, lines 62-65): always returns
`Ok(format!("Order {} updated to {:?}", order_id, status))`. -/
def update_order_status (order_id : String) (status : OrderStatus) : Except String String :=
  .ok ("Order " ++ order_id ++ " updated to " ++ status.debugStr)

/-- `divide` (commands.rs, lines 152-159): division guarded by a
zero test on the divisor. -/
def divide (a b : ℚ) : Except String ℚ :=
  if b = 0 then .error "Division by zero" else .ok (a / b)

/-- The runtime `Product` struct (zod models.rs, lines 22-31). -/
structure Product where
  id : Int
  name : String
  price : ℚ
  in_stock : Option Bool
deriving DecidableEq

/-- A single-quote character as a string, used by the `format!` calls of
`search_products`. -/
def squote : String := String.singleton (Char.ofNat 39)

/-- Rust's `as usize` cast of an `i32` on a 64-bit target: two's-complement
reinterpretation after sign extension, i.e. reduction modulo `2 ^ 64`. -/
def usizeOfI32 (n : Int) : Nat := (n % (2 : Int) ^ 64).toNat

/-- `search_products` (commands.rs, lines 39-59): builds a fixed
two-element product list from the query and truncates it to
`limit.unwrap_or(10) as usize` elements. -/
def search_products (query : String) (limit : Option Int) : List Product :=
  let l := limit.getD 10
  ([ { id := 1, name := "Product matching " ++ squote ++ query ++ squote,
       price := 2999 / 100, in_stock := some true }
   , { id := 2, name := "Another product for " ++ squote ++ query ++ squote,
       price := 4999 / 100, in_stock := some false } ] : List Product).take (usizeOfI32 l)

/-! Streaming-channel trace model for `monitor_system` (commands.rs,
lines 131-149). -/

/-- The two channel parameters of `monitor_system`. -/
inductive Chan where
  | cpu
  | memory
deriving DecidableEq

/-- One iteration of `monitor_system`'s loop at index `i` (1-based): a send
of `20.0 + i * 10.0` on `cpu_channel` followed by a send of
`50.0 + i * 5.0` on `memory_channel`. -/
def monitorStep (i : Nat) : List (Chan × ℚ) :=
  [(Chan.cpu, 20 + (i : ℚ) * 10), (Chan.memory, 50 + (i : ℚ) * 5)]

/-- The full send trace of one `monitor_system` call: iterations
`i = 1..=5` in order. -/
def monitorSends : List (Chan × ℚ) :=
  ((List.range 5).map (fun k => monitorStep (k + 1))).flatten

/-- Boolean equality of channels. -/
def chanEq : Chan → Chan → Bool
  | .cpu, .cpu => true
  | .memory, .memory => true
  | _, _ => false

/-- The subsequence of values a given channel carries in a trace. -/
def projChan (c : Chan) (tr : List (Chan × ℚ)) : List ℚ :=
  (tr.filter (fun e => chanEq e.1 c)).map Prod.snd

/-- Modelled from the spec: the delivery contract for streaming channels
(sections 4.5 and 5).  The delivery mechanism is an external collaborator;
its contract is per-channel FIFO, so the observations a caller can make
are exactly the traces whose per-channel projections equal the sent
sequences.  The event alphabet has no per-channel close event: a channel
ends only with the end of the whole observed trace. -/
def validObs (obs : List (Chan × ℚ)) : Prop :=
  projChan Chan.cpu obs = projChan Chan.cpu monitorSends ∧
  projChan Chan.memory obs = projChan Chan.memory monitorSends

/-! Schema rendering, for the determinism property. -/

/-- Modelled from the spec: the target-language rendering of a type
reference (section 4.3 TypeRef mapping). -/
def renderTypeRef : TypeRef → String
  | .prim .int32 => "number"
  | .prim .int64 => "number"
  | .prim .float64 => "number"
  | .prim .bool => "boolean"
  | .prim .string => "string"
  | .prim .bytes => "Uint8Array"
  | .named n => n
  | .option t => renderTypeRef t ++ " | null"
  | .sequence t => renderTypeRef t ++ "[]"
  | .map t => "Record<string, " ++ renderTypeRef t ++ ">"

/-- Modelled from the spec: rendering of one struct member (section 4.3):
external name, optionality marker, rendered type. -/
def renderField (conv : NamingConvention) (f : Field) : String :=
  fieldExternalName conv f ++ (if f.optional then "?" else "") ++ ": " ++ renderTypeRef f.ty

/-- Modelled from the spec: rendering of a struct declaration — the
non-skipped members in declared order. -/
def renderStruct (s : StructDecl) : String :=
  "interface " ++ s.name ++ " = " ++
    String.intercalate "; " ((s.fields.filter (fun f => !f.skip)).map (renderField s.convention))

/-- Modelled from the spec: rendering of an all-unit enum declaration as a
closed string-literal union keyed by the external tags. -/
def renderEnum (e : EnumDecl) : String :=
  "type " ++ e.name ++ " = " ++
    String.intercalate " | " ((enumTags e).map (fun t => squote ++ t ++ squote))

/-- Rendering of one type declaration. -/
def renderDecl : TypeDecl → String
  | .structDecl s => renderStruct s
  | .enumDecl e => renderEnum e

/-- Modelled from the spec: the Schema Emitter over a whole Declaration
Model (section 4.3) — a pure function of the model, walking declarations
in model order; map-typed members contribute only their rendered type, so
no map iteration order can enter the output. -/
def generate (m : List TypeDecl) : String :=
  String.intercalate "\n" (m.map renderDecl)

/-! Theorems for the claims. -/

/-- Claim C1: the `user_id` field of `User` (container convention
`camelCase`, constraint `Range` with min 1) gets external name `userId`,
and the emitted range validator rejects the value `0` with a single error
whose field path is `userId` and whose message references `userId` and the
violated `min` bound. -/
theorem scenario_a_user_id :
    fieldExternalName userDecl.convention userIdField = "userId" ∧
    (∃ e : ValidationError,
      fieldRangeValidator userDecl.convention userIdField 0 = [e] ∧
      e.fieldPath = "userId" ∧
      "userId".toList <:+: e.message.toList ∧
      "min".toList <:+: e.message.toList) := by
  refine ⟨by decide, ⟨"userId", "userId: below min bound"⟩, by decide, by decide, ?_, ?_⟩
  · exact ⟨[], ": below min bound".toList, by decide⟩
  · exact ⟨"userId: below ".toList, " bound".toList, by decide⟩

/-- Claim C2: the skip-marked `internal_field` of `User` (in both the zod
and the ts example) has external name `internalField`, and that name
appears neither among the emitted schema members, nor among the emitted
validator members, nor among the members required from external input. -/
theorem skip_field_never_emitted :
    fieldExternalName userDecl.convention internalField = "internalField" ∧
    "internalField" ∉ schemaMembers userDecl ∧
    "internalField" ∉ validatorMembers userDecl ∧
    "internalField" ∉ requiredMembers userDecl ∧
    "internalField" ∉ schemaMembers tsUserDecl ∧
    "internalField" ∉ validatorMembers tsUserDecl ∧
    "internalField" ∉ requiredMembers tsUserDecl := by
  refine ⟨by decide, by decide, by decide, by decide, by decide, by decide, by decide⟩

/-- Claim C3: the `id` field of `Product`, carrying the explicit rename
override `productId`, gets external name `productId` under every naming
convention, in both the zod and the ts example; the schema members of
`Product` show the override while the other fields follow the container's
`asDeclared` convention. -/
theorem rename_override_wins :
    (∀ conv : NamingConvention, fieldExternalName conv productIdField = "productId") ∧
    (∀ conv : NamingConvention, fieldExternalName conv tsProductIdField = "productId") ∧
    schemaMembers productDecl = ["productId", "name", "price", "in_stock"] ∧
    schemaMembers tsProductDecl = ["productId", "name", "price", "in_stock"] := by
  exact ⟨fun _ => rfl, fun _ => rfl, by decide, by decide⟩

/-- Claim C4: the `OrderStatus` enum under `screamingSnakeCase` emits
exactly the tags PENDING, PROCESSING, SHIPPED, DELIVERED, CANCELLED, in
declared order and without duplicates. -/
theorem scenario_b_order_status :
    enumTags orderStatusDecl = ["PENDING", "PROCESSING", "SHIPPED", "DELIVERED", "CANCELLED"] ∧
    (enumTags orderStatusDecl).Nodup := by
  exact ⟨by decide, by decide⟩

/-- Claim C5: the `PaymentMethod` enum, whose three variants carry
variant-level overrides, emits exactly the tags credit_card, paypal,
bank_transfer verbatim — under every container naming convention — and
the tags are duplicate-free. -/
theorem scenario_c_payment_method :
    enumTags paymentMethodDecl = ["credit_card", "paypal", "bank_transfer"] ∧
    (∀ conv : NamingConvention,
      paymentMethodDecl.variants.map (variantExternalName conv) =
        ["credit_card", "paypal", "bank_transfer"]) ∧
    (enumTags paymentMethodDecl).Nodup := by
  exact ⟨by decide, fun _ => rfl, by decide⟩

/-- Any `Except` value is in exactly one arm: success or failure, never
both, never neither. -/
theorem except_exactly_one {α : Type} (r : Except String α) :
    Xor' (∃ v, r = Except.ok v) (∃ e, r = Except.error e) := by
  cases r with
  | ok v =>
    exact Or.inl ⟨⟨v, rfl⟩, by rintro ⟨e, h⟩; cases h⟩
  | error e =>
    exact Or.inr ⟨⟨e, rfl⟩, by rintro ⟨v, h⟩; cases h⟩

/-- Claim C6: every invocation of the fallible commands
`update_order_status` and `divide` yields a result in exactly one of the
arms Success (`Except.ok`) and Failure (`Except.error`); a Failure value
never also carries a success payload. -/
theorem fallible_exactly_one_arm :
    (∀ (order_id : String) (st : OrderStatus),
      Xor' (∃ v, update_order_status order_id st = Except.ok v)
        (∃ e, update_order_status order_id st = Except.error e)) ∧
    (∀ a b : ℚ,
      Xor' (∃ v, divide a b = Except.ok v) (∃ e, divide a b = Except.error e)) := by
  exact ⟨fun oid st => except_exactly_one _, fun a b => except_exactly_one _⟩

/-- Claim C9: `divide` fails with the message "Division by zero" exactly
when the divisor is zero, and under the guard `b ≠ 0` it returns the
quotient — the division is never performed with a zero divisor. -/
theorem divide_spec :
    ∀ a b : ℚ,
      (divide a b = Except.error "Division by zero" ↔ b = 0) ∧
      (b ≠ 0 → divide a b = Except.ok (a / b)) ∧
      (b = 0 → divide a b = Except.error "Division by zero") := by
  intro a b
  by_cases hb : b = 0 <;> simp [divide, hb]

/-- Witness for C9 at the concrete input `a = 6`, `b = 3`. -/
theorem divide_spec_witness : divide 6 3 = Except.ok 2 := by
  have h := (divide_spec 6 3).2.1 (by norm_num)
  norm_num at h
  exact h

/-- Claim C7: the generator is a pure function of the Declaration Model —
identical models yield byte-identical output — and on the model containing
`Settings` (whose `features` member is a string-keyed map) the output is a
fixed concrete string, independent of any incidental iteration order. -/
theorem generator_deterministic :
    (∀ m₁ m₂ : List TypeDecl, m₁ = m₂ → generate m₁ = generate m₂) ∧
    generate [.structDecl settingsDecl] =
      "interface Settings = appName: string; version: string; features: Record<string, boolean>; theme?: string | null" := by
  exact ⟨fun m₁ m₂ h => h ▸ rfl, by decide⟩

/-- Witness for C7: re-running the generator on the unchanged `Settings`
model yields the identical output. -/
theorem generator_deterministic_witness :
    generate [.structDecl settingsDecl] = generate [.structDecl settingsDecl] :=
  generator_deterministic.1 [.structDecl settingsDecl] [.structDecl settingsDecl] rfl

/-- Every event of a `monitor_system` trace is on one of the two channels,
so the trace length is the sum of the two projection lengths. -/
theorem length_eq_proj_sum (tr : List (Chan × ℚ)) :
    tr.length = (projChan Chan.cpu tr).length + (projChan Chan.memory tr).length := by
  induction tr with
  | nil => rfl
  | cons e tl ih =>
    obtain ⟨c, v⟩ := e
    cases c <;> simp [projChan, List.filter_cons, chanEq] at ih ⊢ <;> omega

/-- Claim C8: in every observation of one `monitor_system` call that the
delivery contract allows, the `cpu_channel` values arrive exactly in send
order `30, 40, 50, 60, 70` and the `memory_channel` values exactly in send
order `55, 60, 65, 70, 75` (per-channel FIFO); distinct valid observations
exist, so no ordering across the two channels is guaranteed; and every
valid observation has the full length of the send trace, so both channels
end only with the completion of the whole call. -/
theorem monitor_system_channels :
    (∀ obs : List (Chan × ℚ), validObs obs →
      projChan Chan.cpu obs = [30, 40, 50, 60, 70] ∧
      projChan Chan.memory obs = [55, 60, 65, 70, 75]) ∧
    (∃ obs₁ obs₂ : List (Chan × ℚ), validObs obs₁ ∧ validObs obs₂ ∧ obs₁ ≠ obs₂) ∧
    (∀ obs : List (Chan × ℚ), validObs obs → obs.length = monitorSends.length) := by
  refine ⟨?_, ?_, ?_⟩
  · rintro obs ⟨h1, h2⟩
    rw [h1, h2]
    constructor <;>
      norm_num [monitorSends, monitorStep, projChan, List.range, List.range.loop,
        List.filter_cons, chanEq]
  · refine ⟨monitorSends, (Chan.memory, 55) :: (Chan.cpu, 30) :: monitorSends.drop 2,
      ⟨rfl, rfl⟩, ⟨?_, ?_⟩, ?_⟩ <;>
      norm_num [monitorSends, monitorStep, projChan, List.range, List.range.loop,
        List.filter_cons, chanEq]
  · rintro obs ⟨h1, h2⟩
    rw [length_eq_proj_sum obs, h1, h2, ← length_eq_proj_sum monitorSends]

/-- Witness for C8: the send trace itself is a valid observation, and its
projections are the per-channel send sequences. -/
theorem monitor_system_channels_witness :
    projChan Chan.cpu monitorSends = [30, 40, 50, 60, 70] ∧
    projChan Chan.memory monitorSends = [55, 60, 65, 70, 75] :=
  monitor_system_channels.1 monitorSends ⟨rfl, rfl⟩

/-- Claim C10: `search_products` returns at most 2 products — its length
is `min 2 (limit as usize)` with an absent limit defaulting to 10 — so an
absent limit yields 2 results, limit 0 yields an empty list, and a
negative `i32` limit, cast by two's complement to a huge count, also
yields 2 results. -/
theorem search_products_spec :
    (∀ (q : String) (l : Option Int),
      (search_products q l).length = min 2 (usizeOfI32 (l.getD 10))) ∧
    (∀ q : String, (search_products q none).length = 2) ∧
    (∀ q : String, search_products q (some 0) = []) ∧
    (∀ (q : String) (n : Int), n < 0 → -2 ^ 31 ≤ n →
      (search_products q (some n)).length = 2) := by
  have key : ∀ (q : String) (l : Option Int),
      (search_products q l).length = min 2 (usizeOfI32 (l.getD 10)) := by
    intro q l
    simp only [search_products, List.length_take, List.length_cons, List.length_nil]
    omega
  refine ⟨key, ?_, ?_, ?_⟩
  · intro q
    have h10 : usizeOfI32 10 = 10 := by decide
    rw [key q none]
    simp [h10]
  · intro q
    rfl
  · intro q n hneg hlow
    have hp : (2 : Int) ^ 64 = 18446744073709551616 := by norm_num
    have hbig : 2 ≤ usizeOfI32 n := by
      simp only [usizeOfI32, hp]
      omega
    rw [key q (some n)]
    simp only [Option.getD]
    omega

/-- Witness for C10: a negative limit of -1 still yields both products. -/
theorem search_products_spec_witness :
    (search_products "query" (some (-1))).length = 2 :=
  search_products_spec.2.2.2 "query" (-1) (by norm_num) (by norm_num)

end TauriTypegen
